import Mathlib

/-!
Verification of the chess-game simulator core (a React component built on
chess.js).  The move policy `generateAIMove` operates on SAN move strings;
the game state machine is embedded as a record `GameState` with the
commands `startGame`, `pauseGame`, `resetGame`, `handleSpeedChange` and the
timer-driven move effect embedded as `tick`, parameterised by an abstract
chess engine (the chess.js calls) and by the random draws of the policy.
-/

/-- Whether `sub` is a leading segment of `s` (JS `startsWith` on char lists). -/
def charListHasPre : List Char → List Char → Bool
  | [], _ => true
  | _ :: _, [] => false
  | a :: as, b :: bs => a = b && charListHasPre as bs

/-- Whether `sub` occurs contiguously inside `s` (JS `String.includes` on char lists). -/
def charListHasSub (sub : List Char) : List Char → Bool
  | [] => charListHasPre sub []
  | b :: bs => charListHasPre sub (b :: bs) || charListHasSub sub bs

/-- JS `m.includes(sub)` on strings. -/
def strIncludes (m sub : String) : Bool :=
  charListHasSub sub.toList m.toList

/-- The source filters capture moves by `move.includes('x')`. -/
def isCaptureSAN (m : String) : Bool :=
  strIncludes m "x"

/-- The source filters center moves by
`move.includes('e4') || move.includes('e5') || move.includes('d4') || move.includes('d5')`. -/
def mentionsCenter (m : String) : Bool :=
  strIncludes m "e4" || strIncludes m "e5" || strIncludes m "d4" || strIncludes m "d5"

/-- The random draws consumed by one invocation of the policy: each models one
`Math.random()` call, a rational in `[0,1)`. -/
structure Draws where
  capPick : ℚ
  gate : ℚ
  centerPick : ℚ
  allPick : ℚ

/-- JS `Math.floor(r * l.length)` used as an index. -/
def pickIndex (r : ℚ) (n : ℕ) : ℕ :=
  (⌊r * (n : ℚ)⌋).toNat

/-- JS `l[Math.floor(Math.random() * l.length)]`, with the draw `r` explicit. -/
def randPick (r : ℚ) (l : List String) : Option String :=
  l[pickIndex r l.length]?

/-- The move policy from the source (`generateAIMove`): captures first, else
center moves behind a `Math.random() > 0.7` gate, else any move; `null` on an
empty move list. -/
def generateAIMove (possibleMoves : List String) (rnd : Draws) : Option String :=
  if possibleMoves.length = 0 then none
  else
    let captureMoves := possibleMoves.filter isCaptureSAN
    let centerMoves := possibleMoves.filter mentionsCenter
    if 0 < captureMoves.length then
      randPick rnd.capPick captureMoves
    else if 0 < centerMoves.length ∧ rnd.gate > mkRat 7 10 then
      randPick rnd.centerPick centerMoves
    else
      randPick rnd.allPick possibleMoves

/-- Modelled from the spec: the destination square of a SAN move string (the
spec's Move carries an explicit `to` field; at the SAN level the destination is
the final square token, after stripping check and mate suffixes and a promotion
suffix).  Used only to state the spec-side center criterion of C5. -/
def sanDestination (m : String) : String :=
  let cs := m.toList.filter (fun c => decide (c ≠ '+') && decide (c ≠ '#'))
  let cs2 := if cs.length ≥ 2 ∧ cs[cs.length - 2]? = some '=' then cs.take (cs.length - 2) else cs
  String.mk (cs2.drop (cs2.length - 2))

/-- Modelled from the spec: a move whose destination is one of the four center
squares d4, d5, e4, e5. -/
def specIsCenterMove (m : String) : Bool :=
  sanDestination m = "d4" || sanDestination m = "d5" ||
  sanDestination m = "e4" || sanDestination m = "e5"

lemma randPick_mem (r : ℚ) (l : List String) (h0 : 0 ≤ r) (h1 : r < 1)
    (hl : l ≠ []) : ∃ m, randPick r l = some m ∧ m ∈ l := by
  have hn : 0 < l.length := List.length_pos.mpr hl
  have hf : ⌊r * (l.length : ℚ)⌋ < (l.length : ℤ) := by
    rw [Int.floor_lt]
    push_cast
    calc r * (l.length : ℚ) < 1 * l.length := by
          apply mul_lt_mul_of_pos_right h1
          exact_mod_cast hn
      _ = l.length := one_mul _
  have hz : 0 ≤ ⌊r * (l.length : ℚ)⌋ := by
    rw [Int.floor_nonneg]
    positivity
  have hidx : pickIndex r l.length < l.length := by
    unfold pickIndex
    omega
  refine ⟨l[pickIndex r l.length], ?_, List.getElem_mem hidx⟩
  unfold randPick
  exact List.getElem?_eq_getElem hidx

/-- Piece colors as the source uses them. -/
inductive Color where
  | white
  | black
deriving DecidableEq, Repr

/-- What `newGame.move(move)` returns when the move is legal: the successor
position (as FEN), the captured piece letter if any, the mover's color, and
the side to move afterwards (`newGame.turn()`). -/
structure MoveResult where
  newFen : String
  captured : Option String
  color : Color
  newTurn : Color

/-- The chess.js calls the move effect makes, abstracted: legal SAN moves of a
position, applying a SAN move, and game-over detection. -/
structure Engine where
  moves : String → List String
  applyMove : String → String → Option MoveResult
  isGameOver : String → Bool

/-- The `GameState` record of the source. -/
structure GameState where
  fen : String
  gameHistory : List String
  isGameActive : Bool
  currentPlayer : Color
  gameSpeed : Int
  capturedWhite : List String
  capturedBlack : List String
deriving DecidableEq

/-- FEN of `new Chess()`, the standard initial position. -/
def initialFen : String :=
  "rnbqkbnr/pppppppp/8/8/8/8/PPPPPPPP/RNBQKBNR w KQkq - 0 1"

/-- The initial `GameState` passed to `useState` in the source. -/
def initialState : GameState :=
  { fen := initialFen
    gameHistory := []
    isGameActive := false
    currentPlayer := Color.white
    gameSpeed := 2000
    capturedWhite := []
    capturedBlack := [] }

/-- `startGame` from the source. -/
def startGame (s : GameState) : GameState :=
  { s with isGameActive := true }

/-- `pauseGame` from the source. -/
def pauseGame (s : GameState) : GameState :=
  { s with isGameActive := false }

/-- `resetGame` from the source: the whole state is replaced by the initial one. -/
def resetGame (_ : GameState) : GameState :=
  initialState

/-- `handleSpeedChange` from the source. -/
def handleSpeedChange (newSpeed : Int) (s : GameState) : GameState :=
  { s with gameSpeed := newSpeed }

/-- One firing of the timer in the move effect of the source: no-op unless the
game is active and not over; otherwise generate a policy move on the current
position, apply it, and update history, current player and capture tallies. -/
def tick (e : Engine) (rnd : Draws) (s : GameState) : GameState :=
  if ¬ s.isGameActive ∨ e.isGameOver s.fen then s
  else
    match generateAIMove (e.moves s.fen) rnd with
    | none => s
    | some mv =>
      match e.applyMove s.fen mv with
      | none => s
      | some res =>
        let cw := match res.captured, res.color with
          | some p, Color.white => s.capturedWhite ++ [p]
          | _, _ => s.capturedWhite
        let cb := match res.captured, res.color with
          | some p, Color.black => s.capturedBlack ++ [p]
          | _, _ => s.capturedBlack
        { s with
            fen := res.newFen
            gameHistory := s.gameHistory ++ [mv]
            currentPlayer := res.newTurn
            capturedWhite := cw
            capturedBlack := cb }

/-- Draws fixed to zero, for concrete instances. -/
def draws0 : Draws :=
  { capPick := 0, gate := 0, centerPick := 0, allPick := 0 }

/-- A concrete engine offering no moves and never reporting game over. -/
def engineEmpty : Engine :=
  { moves := fun _ => []
    applyMove := fun _ _ => none
    isGameOver := fun _ => false }

/-- A concrete engine that always reports game over. -/
def engineOver : Engine :=
  { moves := fun _ => []
    applyMove := fun _ _ => none
    isGameOver := fun _ => true }

lemma generateAIMove_capture_branch (moves : List String) (rnd : Draws)
    (hlen : ¬ (moves.length = 0)) (hpos : 0 < (moves.filter isCaptureSAN).length) :
    generateAIMove moves rnd = randPick rnd.capPick (moves.filter isCaptureSAN) := by
  simp only [generateAIMove]
  rw [if_neg hlen, if_pos hpos]

lemma generateAIMove_center_branch (moves : List String) (rnd : Draws)
    (hlen : ¬ (moves.length = 0)) (hnocap : ¬ 0 < (moves.filter isCaptureSAN).length)
    (hcen : 0 < (moves.filter mentionsCenter).length ∧ rnd.gate > mkRat 7 10) :
    generateAIMove moves rnd = randPick rnd.centerPick (moves.filter mentionsCenter) := by
  simp only [generateAIMove]
  rw [if_neg hlen, if_neg hnocap, if_pos hcen]

lemma generateAIMove_default_branch (moves : List String) (rnd : Draws)
    (hlen : ¬ (moves.length = 0)) (hnocap : ¬ 0 < (moves.filter isCaptureSAN).length)
    (hcen : ¬ (0 < (moves.filter mentionsCenter).length ∧ rnd.gate > mkRat 7 10)) :
    generateAIMove moves rnd = randPick rnd.allPick moves := by
  simp only [generateAIMove]
  rw [if_neg hlen, if_neg hnocap, if_neg hcen]

/-- Claim C1: for every non-empty move list containing at least one capturing
move, `generateAIMove` returns a capturing move, chosen among the capturing
moves, irrespective of the other random draws: the capture tier takes priority
over every other tier. -/
theorem generateAIMove_captures_first (moves : List String) (rnd : Draws)
    (h0 : 0 ≤ rnd.capPick) (h1 : rnd.capPick < 1)
    (hc : moves.filter isCaptureSAN ≠ []) :
    ∃ m, generateAIMove moves rnd = some m ∧
      m ∈ moves.filter isCaptureSAN ∧ isCaptureSAN m = true ∧ m ∈ moves := by
  obtain ⟨m, hpick, hmem⟩ := randPick_mem rnd.capPick (moves.filter isCaptureSAN) h0 h1 hc
  have hmv := List.mem_filter.mp hmem
  have hlen : ¬ (moves.length = 0) := by
    rw [List.length_eq_zero]
    intro h
    exact hc (by simp [h])
  have hpos : 0 < (moves.filter isCaptureSAN).length := List.length_pos.mpr hc
  exact ⟨m, by rw [generateAIMove_capture_branch moves rnd hlen hpos]; exact hpick,
    hmem, hmv.2, hmv.1⟩

/-- Witness for C1 at the concrete move list `["exd5", "Nf3"]`. -/
theorem generateAIMove_captures_first_witness :
    ∃ m, generateAIMove ["exd5", "Nf3"] ⟨0, 0, 0, 0⟩ = some m ∧
      m ∈ ["exd5", "Nf3"].filter isCaptureSAN ∧ isCaptureSAN m = true ∧
      m ∈ ["exd5", "Nf3"] :=
  generateAIMove_captures_first ["exd5", "Nf3"] ⟨0, 0, 0, 0⟩ (le_refl 0)
    (by norm_num) (by decide)

/-- Claim C2: for every non-empty move list and all random draws (each in the
interval `[0,1)`, the range of `Math.random()`), `generateAIMove` returns a
member of its input move list. -/
theorem generateAIMove_mem (moves : List String) (rnd : Draws)
    (hcap0 : 0 ≤ rnd.capPick) (hcap1 : rnd.capPick < 1)
    (hcen0 : 0 ≤ rnd.centerPick) (hcen1 : rnd.centerPick < 1)
    (hall0 : 0 ≤ rnd.allPick) (hall1 : rnd.allPick < 1)
    (hne : moves ≠ []) :
    ∃ m, generateAIMove moves rnd = some m ∧ m ∈ moves := by
  have hlen : ¬ (moves.length = 0) := by
    rw [List.length_eq_zero]
    exact hne
  by_cases hcap : 0 < (moves.filter isCaptureSAN).length
  · obtain ⟨m, hp, hm⟩ :=
      randPick_mem rnd.capPick (moves.filter isCaptureSAN) hcap0 hcap1
        (List.length_pos.mp hcap)
    exact ⟨m, by rw [generateAIMove_capture_branch moves rnd hlen hcap]; exact hp,
      (List.mem_filter.mp hm).1⟩
  · by_cases hcen : 0 < (moves.filter mentionsCenter).length ∧ rnd.gate > mkRat 7 10
    · obtain ⟨m, hp, hm⟩ :=
        randPick_mem rnd.centerPick (moves.filter mentionsCenter) hcen0 hcen1
          (List.length_pos.mp hcen.1)
      exact ⟨m, by rw [generateAIMove_center_branch moves rnd hlen hcap hcen]; exact hp,
        (List.mem_filter.mp hm).1⟩
    · obtain ⟨m, hp, hm⟩ := randPick_mem rnd.allPick moves hall0 hall1 hne
      exact ⟨m, by rw [generateAIMove_default_branch moves rnd hlen hcap hcen]; exact hp, hm⟩

/-- Witness for C2 at the concrete move list `["a3", "Nf3"]`. -/
theorem generateAIMove_mem_witness :
    ∃ m, generateAIMove ["a3", "Nf3"] ⟨0, 0, 0, 0⟩ = some m ∧ m ∈ ["a3", "Nf3"] :=
  generateAIMove_mem ["a3", "Nf3"] ⟨0, 0, 0, 0⟩ (le_refl 0) (by norm_num) (le_refl 0)
    (by norm_num) (le_refl 0) (by norm_num) (by decide)

/-- Claim C5 (amended): when no move in the list contains the capture marker,
the tier is a deterministic function of the move list and the draws: if some
move mentions a center-square name (the source tests substring containment of
e4, e5, d4, d5 in the SAN string) and the gate draw exceeds 0.7, the result is
exactly the uniform pick `randPick rnd.centerPick` over those center-mentioning
moves; otherwise it is exactly the uniform pick `randPick rnd.allPick` over all
moves. -/
theorem generateAIMove_center_tier (moves : List String) (rnd : Draws)
    (hcen0 : 0 ≤ rnd.centerPick) (hcen1 : rnd.centerPick < 1)
    (hall0 : 0 ≤ rnd.allPick) (hall1 : rnd.allPick < 1)
    (hne : moves ≠ [])
    (hnocap : moves.filter isCaptureSAN = []) :
    (moves.filter mentionsCenter ≠ [] ∧ rnd.gate > mkRat 7 10 →
      generateAIMove moves rnd = randPick rnd.centerPick (moves.filter mentionsCenter) ∧
      ∃ m, generateAIMove moves rnd = some m ∧
        m ∈ moves.filter mentionsCenter ∧ m ∈ moves) ∧
    (¬ (moves.filter mentionsCenter ≠ [] ∧ rnd.gate > mkRat 7 10) →
      generateAIMove moves rnd = randPick rnd.allPick moves ∧
      ∃ m, generateAIMove moves rnd = some m ∧ m ∈ moves) := by
  have hlen : ¬ (moves.length = 0) := by
    rw [List.length_eq_zero]
    exact hne
  have hcap : ¬ 0 < (moves.filter isCaptureSAN).length := by
    rw [hnocap]
    simp
  constructor
  · intro hcen
    have hcen' : 0 < (moves.filter mentionsCenter).length ∧ rnd.gate > mkRat 7 10 :=
      ⟨List.length_pos.mpr hcen.1, hcen.2⟩
    have heq := generateAIMove_center_branch moves rnd hlen hcap hcen'
    obtain ⟨m, hp, hm⟩ :=
      randPick_mem rnd.centerPick (moves.filter mentionsCenter) hcen0 hcen1 hcen.1
    exact ⟨heq, m, heq.trans hp, hm, (List.mem_filter.mp hm).1⟩
  · intro hcen
    have hcen' : ¬ (0 < (moves.filter mentionsCenter).length ∧ rnd.gate > mkRat 7 10) := by
      intro h
      exact hcen ⟨List.length_pos.mp h.1, h.2⟩
    have heq := generateAIMove_default_branch moves rnd hlen hcap hcen'
    obtain ⟨m, hp, hm⟩ := randPick_mem rnd.allPick moves hall0 hall1 hne
    exact ⟨heq, m, heq.trans hp, hm⟩

/-- Witness for C5 (amended) at the concrete move list `["e4", "a3"]` with the
gate draw 0.8. -/
theorem generateAIMove_center_tier_witness :
    (["e4", "a3"].filter mentionsCenter ≠ [] ∧
        (Draws.mk 0 (mkRat 4 5) 0 0).gate > mkRat 7 10 →
      generateAIMove ["e4", "a3"] (Draws.mk 0 (mkRat 4 5) 0 0) =
        randPick (Draws.mk 0 (mkRat 4 5) 0 0).centerPick
          (["e4", "a3"].filter mentionsCenter) ∧
      ∃ m, generateAIMove ["e4", "a3"] (Draws.mk 0 (mkRat 4 5) 0 0) = some m ∧
        m ∈ ["e4", "a3"].filter mentionsCenter ∧ m ∈ ["e4", "a3"]) ∧
    (¬ (["e4", "a3"].filter mentionsCenter ≠ [] ∧
        (Draws.mk 0 (mkRat 4 5) 0 0).gate > mkRat 7 10) →
      generateAIMove ["e4", "a3"] (Draws.mk 0 (mkRat 4 5) 0 0) =
        randPick (Draws.mk 0 (mkRat 4 5) 0 0).allPick ["e4", "a3"] ∧
      ∃ m, generateAIMove ["e4", "a3"] (Draws.mk 0 (mkRat 4 5) 0 0) = some m ∧
        m ∈ ["e4", "a3"]) :=
  generateAIMove_center_tier ["e4", "a3"] (Draws.mk 0 (mkRat 4 5) 0 0)
    (le_refl 0) (by norm_num) (le_refl 0) (by norm_num) (by decide) (by decide)

unseal Rat.mul in
/-- Counterexample to C5 as stated: in the move list `["Qd4c5", "a3"]` no move
captures and no move has a center destination (the destinations are c5 and a3;
"Qd4c5" merely names its origin square d4 in its disambiguation prefix), so by
the claim the policy must fall through to the uniform tier over all moves,
which at the draw 0.9 yields "a3"; the code instead treats "Qd4c5" as a center
move and returns it when the gate draw is 0.8. -/
theorem generateAIMove_center_dest_cex :
    ["Qd4c5", "a3"].filter isCaptureSAN = [] ∧
    ["Qd4c5", "a3"].filter specIsCenterMove = [] ∧
    generateAIMove ["Qd4c5", "a3"] (Draws.mk 0 (mkRat 4 5) 0 (mkRat 9 10)) = some "Qd4c5" ∧
    randPick (mkRat 9 10) ["Qd4c5", "a3"] = some "a3" ∧
    ¬ (generateAIMove ["Qd4c5", "a3"] (Draws.mk 0 (mkRat 4 5) 0 (mkRat 9 10)) =
        randPick (Draws.mk 0 (mkRat 4 5) 0 (mkRat 9 10)).allPick ["Qd4c5", "a3"]) := by
  decide

lemma tick_inactive (e : Engine) (rnd : Draws) (s : GameState)
    (h : s.isGameActive = false) : tick e rnd s = s := by
  unfold tick
  rw [if_pos]
  rw [h]
  simp

/-- Claim C6: a tick arriving after the status left active (via pause or
reset) applies no pending move and leaves the whole state — board, history,
capture lists — unchanged; likewise a tick on a finished game is a no-op. -/
theorem tick_cancelled_noop (e : Engine) (rnd : Draws) (s : GameState) :
    tick e rnd (pauseGame s) = pauseGame s ∧
    tick e rnd (resetGame s) = resetGame s ∧
    (e.isGameOver s.fen = true → tick e rnd s = s) := by
  refine ⟨tick_inactive e rnd (pauseGame s) rfl, tick_inactive e rnd (resetGame s) rfl, ?_⟩
  intro h
  unfold tick
  rw [if_pos]
  rw [h]
  simp

/-- Witness for C6: on a game-over position a tick of an active session is a
no-op. -/
theorem tick_cancelled_noop_witness :
    tick engineOver draws0 (startGame initialState) = startGame initialState :=
  (tick_cancelled_noop engineOver draws0 (startGame initialState)).2.2 rfl

/-- Claim C7: pausing flips only the active flag — board, history, capture
lists, speed and current player are untouched — and a subsequent start resumes
the very same game from the same board. -/
theorem pauseGame_frame (s : GameState) :
    (pauseGame s).isGameActive = false ∧
    (pauseGame s).fen = s.fen ∧
    (pauseGame s).gameHistory = s.gameHistory ∧
    (pauseGame s).capturedWhite = s.capturedWhite ∧
    (pauseGame s).capturedBlack = s.capturedBlack ∧
    (pauseGame s).gameSpeed = s.gameSpeed ∧
    (pauseGame s).currentPlayer = s.currentPlayer ∧
    (startGame (pauseGame s)).isGameActive = true ∧
    (startGame (pauseGame s)).fen = s.fen ∧
    (startGame (pauseGame s)).gameHistory = s.gameHistory ∧
    (startGame (pauseGame s)).capturedWhite = s.capturedWhite ∧
    (startGame (pauseGame s)).capturedBlack = s.capturedBlack ∧
    (startGame (pauseGame s)).gameSpeed = s.gameSpeed :=
  ⟨rfl, rfl, rfl, rfl, rfl, rfl, rfl, rfl, rfl, rfl, rfl, rfl, rfl⟩

/-- Claim C8: reset replaces the session entirely — initial board, empty
history, empty capture lists, inactive. -/
theorem resetGame_fresh (s : GameState) :
    (resetGame s).fen = initialFen ∧
    (resetGame s).gameHistory = [] ∧
    (resetGame s).capturedWhite = [] ∧
    (resetGame s).capturedBlack = [] ∧
    (resetGame s).isGameActive = false :=
  ⟨rfl, rfl, rfl, rfl, rfl⟩

/-- Claim C9 (amended): a reset during an in-flight delay discards the pending
move — the subsequently cancelled tick changes nothing — and the resulting
board is the fresh initial position (not, in general, the pre-delay board). -/
theorem resetGame_discards_pending (e : Engine) (rnd : Draws) (s : GameState) :
    tick e rnd (resetGame s) = resetGame s ∧ (resetGame s).fen = initialFen :=
  ⟨tick_inactive e rnd (resetGame s) rfl, rfl⟩

/-- The position after 1.e4, as a pre-delay board. -/
def fenAfterE4 : String :=
  "rnbqkbnr/pppppppp/8/8/4P3/8/PPPP1PPP/RNBQKBNR b KQkq e3 0 1"

/-- An active session whose board is the position after 1.e4. -/
def stateAfterE4 : GameState :=
  { fen := fenAfterE4
    gameHistory := ["e4"]
    isGameActive := true
    currentPlayer := Color.black
    gameSpeed := 2000
    capturedWhite := []
    capturedBlack := [] }

/-- Counterexample to C9 as stated: with the pre-delay board being the
position after 1.e4, a reset followed by the cancelled tick yields the initial
board, which differs from the pre-delay board. -/
theorem resetGame_midDelay_cex :
    tick engineEmpty draws0 (resetGame stateAfterE4) = resetGame stateAfterE4 ∧
    ¬ ((tick engineEmpty draws0 (resetGame stateAfterE4)).fen = stateAfterE4.fen) := by
  decide

/-- Claim C10: reset also restores the configured inter-move delay to the
default 2000 ms, discarding any previously configured delay. -/
theorem resetGame_restores_speed (v : Int) (s : GameState) :
    (resetGame s).gameSpeed = 2000 ∧
    (resetGame (handleSpeedChange v s)).gameSpeed = 2000 :=
  ⟨rfl, rfl⟩

/-- Counterexample to C3 as stated: the delay-change command stores the
out-of-range value 10000 verbatim, so the stored inter-move delay ends up
outside the valid range 500–5000. -/
theorem handleSpeedChange_no_clamp_cex :
    (handleSpeedChange 10000 initialState).gameSpeed = 10000 ∧
    ¬ ((handleSpeedChange 10000 initialState).gameSpeed ≤ 5000) := by
  decide

/-- Claim C3 (amended): the core neither clamps nor refuses — the delay-change
command stores the given value verbatim (so it is in range exactly when the
input is) and changes no other session state. -/
theorem handleSpeedChange_stores_verbatim (v : Int) (s : GameState) :
    (handleSpeedChange v s).gameSpeed = v ∧
    (handleSpeedChange v s).fen = s.fen ∧
    (handleSpeedChange v s).gameHistory = s.gameHistory ∧
    (handleSpeedChange v s).isGameActive = s.isGameActive ∧
    (handleSpeedChange v s).currentPlayer = s.currentPlayer ∧
    (handleSpeedChange v s).capturedWhite = s.capturedWhite ∧
    (handleSpeedChange v s).capturedBlack = s.capturedBlack :=
  ⟨rfl, rfl, rfl, rfl, rfl, rfl, rfl⟩

/-- Counterexample to C4 as stated: on an empty move set the policy does not
abort — it returns the ordinary value `none`, and a tick over an engine
offering no moves completes normally leaving the session unchanged. -/
theorem emptyMoves_silent_cex :
    generateAIMove [] draws0 = none ∧
    tick engineEmpty draws0 (startGame initialState) = startGame initialState := by
  decide

/-- Claim C4 (amended): invoked when the legal-move set is empty, the policy
returns `none` and the tick silently skips the move application, leaving the
session state unchanged — a silent no-op, not a fail-fast abort. -/
theorem emptyMoves_noop (e : Engine) (rnd : Draws) (s : GameState)
    (hm : e.moves s.fen = []) :
    generateAIMove (e.moves s.fen) rnd = none ∧ tick e rnd s = s := by
  constructor
  · rw [hm]
    rfl
  · unfold tick
    split
    · rfl
    · rw [hm]
      rfl

/-- Witness for C4 (amended) at a concrete engine with no moves. -/
theorem emptyMoves_noop_witness :
    generateAIMove (engineEmpty.moves stateAfterE4.fen) draws0 = none ∧
    tick engineEmpty draws0 stateAfterE4 = stateAfterE4 :=
  emptyMoves_noop engineEmpty draws0 stateAfterE4 rfl
